import Mathlib

/-!
Shallow embedding of the Element Profiling & Stable Selector Synthesis
Engine (tagger v4.0, the unified version of the injected page script) and
proofs about it.

Modelling conventions:
* Times are in milliseconds, as natural numbers.
* The DOM is a flat store of nodes.  Each node is addressed by a reversed
  child-index path (head = index among the parent's child nodes, `[]` = the
  root, which plays the role of `document.body`).  The store is listed in
  document (pre-)order.  Documents in this development have no shadow
  subtrees, on which the collector's shadow recursion contributes nothing.
* Host (browser) behaviour that the script calls into - `querySelectorAll`
  counting, DOM properties such as `el.value` - is modelled explicitly next
  to the functions that use it.
* Selector strings are represented by an AST `Sel` together with `Sel.render`
  producing exactly the string the script would have built; the script's
  string comparisons are performed on rendered strings.
-/

namespace Tagger

/-! ## String helpers

The script normalizes text with `trim()` and `replace(/\s+/g, ' ')`. We model
these character-by-character so that everything reduces in the kernel. -/

/-- Characters of a string with leading and trailing whitespace removed:
the model of `String.prototype.trim`. -/
def trimChars (l : List Char) : List Char :=
  ((l.dropWhile (·.isWhitespace)).reverse.dropWhile (·.isWhitespace)).reverse

/-- Model of `trim()` on strings. -/
def trimStr (s : String) : String :=
  String.mk (trimChars s.data)

/-- Split a character list on whitespace runs, keeping only the non-empty
maximal words, accumulating the current word in reverse. -/
def splitWSAux : List Char → List Char → List (List Char)
  | [], cur => if cur = [] then [] else [cur.reverse]
  | c :: cs, cur =>
    if c.isWhitespace then
      if cur = [] then splitWSAux cs [] else cur.reverse :: splitWSAux cs []
    else splitWSAux cs (c :: cur)

/-- Model of `s.trim().replace(/\s+/g, ' ')`: collapse every whitespace run to a
single space and trim the ends. -/
def normWS (s : String) : String :=
  String.intercalate " " ((splitWSAux s.data []).map String.mk)

/-- Is `sub` a prefix of the second list? -/
def prefixAt : List Char → List Char → Bool
  | [], _ => true
  | _ :: _, [] => false
  | a :: as, b :: bs => a == b && prefixAt as bs

/-- Does the haystack contain `sub` as a contiguous substring? -/
def containsSubChars (sub : List Char) : List Char → Bool
  | [] => sub.isEmpty
  | c :: cs => prefixAt sub (c :: cs) || containsSubChars sub cs

/-- Substring containment on strings. -/
def containsSub (s sub : String) : Bool :=
  containsSubChars sub.data s.data

/-! ## Phase 1: DOM stabilization (the Stability Gate)

Source: the Promise executor of tagger v4.0 (src/unnamed/part_001, lines
19-57; the v3.0 copy in src/utils/tagger.js lines 16-54 is identical).

A run of the gate is determined by the (sorted) list of instants at which
structural mutations are observed.  The executor keeps one debounce deadline:
it starts at 300 (the kick-start timer), and a mutation observed at instant
`t` replaces it by `t + 300` - but only if the gate has not already resolved,
i.e. only if `t` is before both the current debounce deadline and the 3000ms
failsafe.  The gate resolves at the debounce deadline if that is at most
3000, otherwise at 3000 when the failsafe fires. -/

/-- One step per observed mutation: `d` is the pending debounce deadline.
Returns the instant at which the promise is resolved. -/
def gateStep : List Nat → Nat → Nat
  | [], d => min d 3000
  | t :: ts, d => if t < min d 3000 then gateStep ts (t + 300) else min d 3000

/-- Resolution instant of the stability gate for a mutation schedule. -/
def resolveTime (muts : List Nat) : Nat :=
  gateStep muts 300

/-- Declarative reading of the debounce, with pending deadline `d`:
instant `r` is a legal debounce-fire point if it is not before `d` and every
mutation either happened at least 300ms before `r` or not before `r`. -/
def QuietD (muts : List Nat) (d r : Nat) : Prop :=
  d ≤ r ∧ ∀ t ∈ muts, t + 300 ≤ r ∨ r ≤ t

/-- The claim's notion of quiescence: at instant `r` (which is at least
300ms after load) the document has gone 300ms without a structural
mutation. -/
def QuietAt (muts : List Nat) (r : Nat) : Prop :=
  300 ≤ r ∧ ∀ t ∈ muts, t + 300 ≤ r ∨ r ≤ t

/-- Mutation schedule with one mutation every 100ms, `n` of them. -/
def hundredEvery (n : Nat) : List Nat :=
  (List.range n).map fun i => 100 * (i + 1)

/-- Executions of `performTagging` (instants), for a mutation schedule.
The debounce path clears the failsafe timer before resolving, so it runs
`performTagging` exactly once.  The failsafe path disconnects the observer
but does NOT clear the pending `stabilityTimer`; if that timer's deadline
`d` lies beyond 3000, it still fires at `d` and its callback evaluates
`performTagging()` again (the second `resolve` is then ignored by the
promise, but the work happens). -/
def runsFrom : List Nat → Nat → List Nat
  | [], d => if d ≤ 3000 then [d] else [3000, d]
  | t :: ts, d =>
    if t < min d 3000 then runsFrom ts (t + 300)
    else if d ≤ 3000 then [d] else [3000, d]

/-- Instants at which `performTagging` is executed for a schedule. -/
def tagRuns (muts : List Nat) : List Nat :=
  runsFrom muts 300

/-- Mutations every 100ms up to 2800ms: the debounce deadline ends at
3100ms, past the 3000ms failsafe. -/
def muts2800 : List Nat :=
  hundredEvery 28

/-- Characterization of the gate: for a strictly increasing mutation
schedule, with pending deadline `d ≥ 300` such that no mutation precedes
the instant the pending deadline was set (`d ≤ t + 300`), the resolution is
the least legal debounce-fire point, capped at 3000. -/
theorem gateStep_spec : ∀ (muts : List Nat) (d : Nat), 300 ≤ d →
    muts.Pairwise (· < ·) → (∀ t ∈ muts, d ≤ t + 300) →
    (QuietD muts d (gateStep muts d) ∧ gateStep muts d ≤ 3000 ∧
        ∀ r, QuietD muts d r → gateStep muts d ≤ r)
      ∨ (gateStep muts d = 3000 ∧ ∀ r, QuietD muts d r → 3000 ≤ r) := by
  intro muts
  induction muts with
  | nil =>
    intro d hd _ _
    by_cases hle : d ≤ 3000
    · left
      have hmin : gateStep [] d = d := by
        simp [gateStep, Nat.min_eq_left hle]
      rw [hmin]
      exact ⟨⟨le_refl d, fun t ht => absurd ht (List.not_mem_nil t)⟩, hle,
        fun r hr => hr.1⟩
    · right
      have hmin : gateStep [] d = 3000 := by
        simp [gateStep]
        omega
      rw [hmin]
      exact ⟨rfl, fun r hr => by have := hr.1; omega⟩
  | cons t ts ih =>
    intro d hd hp hinv
    have hpt : ∀ u ∈ ts, t < u := (List.pairwise_cons.mp hp).1
    have hpts : ts.Pairwise (· < ·) := (List.pairwise_cons.mp hp).2
    have hdt : d ≤ t + 300 := hinv t (List.mem_cons_self t ts)
    by_cases hc : t < min d 3000
    · have hstep : gateStep (t :: ts) d = gateStep ts (t + 300) := by
        simp [gateStep, hc]
      have hminle : min d 3000 ≤ d := Nat.min_le_left d 3000
      have hquiet : ∀ r, QuietD (t :: ts) d r ↔ QuietD ts (t + 300) r := by
        intro r
        constructor
        · rintro ⟨hdr, hall⟩
          refine ⟨?_, fun u hu => hall u (List.mem_cons_of_mem t hu)⟩
          rcases hall t (List.mem_cons_self t ts) with h1 | h1
          · exact h1
          · omega
        · rintro ⟨hdr, hall⟩
          refine ⟨by omega, fun u hu => ?_⟩
          rcases List.mem_cons.mp hu with rfl | hu'
          · left; omega
          · exact hall u hu'
      have hinv' : ∀ u ∈ ts, t + 300 ≤ u + 300 := fun u hu => by
        have := hpt u hu; omega
      rcases ih (t + 300) (by omega) hpts hinv' with ⟨hq, hb, hmin⟩ | ⟨heq, hmin⟩
      · left
        rw [hstep]
        exact ⟨(hquiet _).mpr hq, hb, fun r hr => hmin r ((hquiet r).mp hr)⟩
      · right
        rw [hstep]
        exact ⟨heq, fun r hr => hmin r ((hquiet r).mp hr)⟩
    · have hstep : gateStep (t :: ts) d = min d 3000 := by
        simp [gateStep, hc]
      by_cases hle : d ≤ 3000
      · left
        have hmd : min d 3000 = d := Nat.min_eq_left hle
        rw [hstep, hmd]
        rw [hmd] at hc
        have hdt' : d ≤ t := by omega
        refine ⟨⟨le_refl d, fun u hu => ?_⟩, hle, fun r hr => hr.1⟩
        rcases List.mem_cons.mp hu with rfl | hu'
        · right; exact hdt'
        · right; have := hpt u hu'; omega
      · right
        rw [hstep, Nat.min_eq_right (by omega)]
        exact ⟨rfl, fun r hr => by have := hr.1; omega⟩

/-- Claim C2: for every (strictly increasing) mutation schedule, the
Stability Gate resolves at whichever comes first: the first instant at which
the document has gone 300ms without a structural mutation (every mutation
resets the 300ms debounce), or the 3000ms hard deadline; in particular a
document mutating every 100ms for 2.5s then stopping resolves at 2800ms,
and one mutating every 100ms past 3000ms resolves exactly at 3000ms. -/
theorem stability_gate_resolution (muts : List Nat)
    (hsort : muts.Pairwise (· < ·)) :
    ((QuietAt muts (resolveTime muts) ∧ resolveTime muts ≤ 3000 ∧
        ∀ r, QuietAt muts r → resolveTime muts ≤ r) ∨
      (resolveTime muts = 3000 ∧ ∀ r, QuietAt muts r → 3000 ≤ r)) ∧
    resolveTime (hundredEvery 25) = 2800 ∧
    resolveTime (hundredEvery 35) = 3000 := by
  refine ⟨?_, by decide, by decide⟩
  have h := gateStep_spec muts 300 (le_refl 300) hsort (fun t _ => by omega)
  exact h

/-- Witness for C2 at the concrete schedule `[100, 350]`. -/
theorem stability_gate_resolution_witness :
    ([100, 350] : List Nat).Pairwise (· < ·) ∧
    (((QuietAt [100, 350] (resolveTime [100, 350]) ∧
        resolveTime [100, 350] ≤ 3000 ∧
        ∀ r, QuietAt [100, 350] r → resolveTime [100, 350] ≤ r) ∨
      (resolveTime [100, 350] = 3000 ∧
        ∀ r, QuietAt [100, 350] r → 3000 ≤ r)) ∧
    resolveTime (hundredEvery 25) = 2800 ∧
    resolveTime (hundredEvery 35) = 3000) :=
  ⟨by decide, stability_gate_resolution [100, 350] (by decide)⟩

/-- Claim C3 (code-bug evidence): with mutations every 100ms through 2800ms
the debounce deadline pending at the 3000ms failsafe is 3100ms; the failsafe
resolves at 3000ms but leaves the `stabilityTimer` uncancelled, so
`performTagging` runs a second time at 3100ms: the run list has length two,
while the claim requires the losing path's timer to be cancelled so that
exactly one run can occur. -/
theorem stale_timer_double_run :
    tagRuns muts2800 = [3000, 3100] ∧ (tagRuns muts2800).length = 2 := by
  decide

/-! ## The document model

A flat store of nodes.  `path` is the reversed child-index path from the
root: `[]` is the root (the scan root, `document.body`), and `j :: q` is the
`j`-th child node (elements and text nodes alike) of the node at `q`.
Geometry and computed style (`getBoundingClientRect` / `getComputedStyle`)
are host-supplied snapshots carried on each element. -/

/-- Computed style and geometry snapshot of an element. -/
structure Style where
  width : Nat
  height : Nat
  display : String
  visibility : String
  opacity : String
deriving DecidableEq, Repr

/-- A DOM node: an element with tag (stored lowercase, as the script works
with `tagName.toLowerCase()`), attributes in declaration order, and style;
or a text node. -/
inductive NData where
  | elem (tag : String) (attrs : List (String × String)) (style : Style)
  | txt (s : String)
deriving DecidableEq, Repr

/-- A stored node: its reversed child-index path plus its data. -/
structure Entry where
  path : List Nat
  data : NData
deriving DecidableEq, Repr

/-- A document: the node store, listed in document (pre-)order. -/
abbrev Doc := List Entry

def NData.isElem : NData → Bool
  | .elem .. => true
  | .txt _ => false

def tagOf : NData → String
  | .elem t _ _ => t
  | .txt _ => ""

def attrsOf : NData → List (String × String)
  | .elem _ attrs _ => attrs
  | .txt _ => []

def styleOf : NData → Style
  | .elem _ _ st => st
  | .txt _ => ⟨0, 0, "", "", ""⟩

/-- Model of `getAttribute`: `none` models a `null` return. -/
def attrOf (d : NData) (n : String) : Option String :=
  ((attrsOf d).find? fun a => a.1 == n).map (·.2)

/-- Attribute value, with `""` for an absent attribute (JS falsy either
way, which is how the script tests attributes/properties). -/
def attrD (d : NData) (n : String) : String :=
  (attrOf d n).getD ""

/-- Model of `hasAttribute`. -/
def hasAttrB (d : NData) (n : String) : Bool :=
  (attrOf d n).isSome

/-- Node data at a path (`.txt ""` for a nonexistent node; every function
below is only applied to paths present in the store). -/
def dataAt (doc : Doc) (p : List Nat) : NData :=
  ((doc.find? fun e => e.path == p).map (·.data)).getD (.txt "")

/-- The element's `id` property. -/
def idProp (doc : Doc) (p : List Nat) : String :=
  attrD (dataAt doc p) "id"

/-- Text-node children of the node at `p`, in document order. -/
def childTexts (doc : Doc) (p : List Nat) : List String :=
  doc.filterMap fun e =>
    match e.path, e.data with
    | _ :: q, .txt s => if q == p then some s else none
    | _, _ => none

/-- Source function `getDirectText(el)`: concatenate the trimmed text of each text-node
child, then trim and collapse whitespace (source lines 109-120). -/
def getDirectText (doc : Doc) (p : List Nat) : String :=
  normWS (String.join ((childTexts doc p).map trimStr))

/-- All text nodes in the subtree of `p` (proper descendants), in document
order: the model of `textContent`. -/
def descTexts (doc : Doc) (p : List Nat) : List String :=
  doc.filterMap fun e =>
    match e.data with
    | .txt s => if e.path != p && p.isSuffixOf e.path then some s else none
    | _ => none

/-- Model of `el.textContent` (concatenated raw descendant text). -/
def textContentAll (doc : Doc) (p : List Nat) : String :=
  String.join (descTexts doc p)

/-- Paths of all elements of the document, in document order. -/
def elemPaths (doc : Doc) : List (List Nat) :=
  doc.filterMap fun e => if e.data.isElem then some e.path else none

/-- Ancestor paths of `p`, nearest first (`parentElement` chain; the root
plays `document.body`, whose parent is not modelled). -/
def ancPaths : List Nat → List (List Nat)
  | [] => []
  | _ :: q => q :: ancPaths q

/-- Source function `getNthChildIndex(el)`: 1 + the number of preceding element siblings
(`previousElementSibling` skips text nodes), source lines 154-162. -/
def getNthChildIndex (doc : Doc) : List Nat → Nat
  | [] => 1
  | i :: q => 1 + doc.countP fun e =>
      e.data.isElem &&
        (match e.path with
         | j :: r => r == q && decide (j < i)
         | [] => false)

/-- Preceding element siblings of the node at `p`, nearest first. -/
def prevElemSiblings (doc : Doc) (p : List Nat) : List (List Nat) :=
  match p with
  | [] => []
  | i :: q => (List.range i).reverse.filterMap fun j =>
      if (dataAt doc (j :: q)).isElem then some (j :: q) else none

/-- Model of `document.getElementById`: first element in document order carrying the
id. -/
def getElementById (doc : Doc) (i : String) : Option (List Nat) :=
  (doc.find? fun e => e.data.isElem && attrD e.data "id" == i).map (·.path)

/-! ## Selector expressions

The script builds selector strings; we represent exactly the shapes it
builds as an AST with a renderer producing the very same strings. -/

/-- One token of a positional path selector. -/
inductive PathTok where
  | idTok (i : String)
  | nth (tag : String) (k : Nat)
deriving DecidableEq, Repr

/-- Selector expressions built by the script. -/
inductive Sel where
  | byId (i : String)
  | byAttr (n v : String)
  | tagAttr (t n v : String)
  | hasText (t txt : String)
  | cssPath (toks : List PathTok)
  | chain (a b : Sel)
deriving DecidableEq, Repr

/-- Model of `text.replace(/"/g, '\\"')` character by character. -/
def escChars : List Char → List Char
  | [] => []
  | c :: cs => if c = '"' then '\\' :: '"' :: escChars cs else c :: escChars cs

/-- Escape double quotes as the script does before embedding text. -/
def escQ (s : String) : String :=
  String.mk (escChars s.data)

def PathTok.render : PathTok → String
  | .idTok i => "#" ++ i
  | .nth t k => t ++ ":nth-child(" ++ toString k ++ ")"

/-- The string the script would have built for this selector. -/
def Sel.render : Sel → String
  | .byId i => "#" ++ i
  | .byAttr n v => "[" ++ n ++ "=\"" ++ v ++ "\"]"
  | .tagAttr t n v => t ++ "[" ++ n ++ "=\"" ++ v ++ "\"]"
  | .hasText t txt => t ++ ":has-text(\"" ++ escQ txt ++ "\")"
  | .cssPath toks => String.intercalate " > " (toks.map PathTok.render)
  | .chain a b => a.render ++ " >> " ++ b.render

/-- Is this the shape produced by the structural (position-based) fallback
(`buildPositionBasedSelector` returns exactly a joined positional path)? -/
def Sel.isStructuralPath : Sel → Bool
  | .cssPath _ => true
  | _ => false

/-- Does one path-selector token match the element at `p`? -/
def matchTok (doc : Doc) (p : List Nat) : PathTok → Bool
  | .idTok i => (dataAt doc p).isElem && attrD (dataAt doc p) "id" == i
  | .nth t k => tagOf (dataAt doc p) == t && getNthChildIndex doc p == k

/-- Match a child-combinator token chain, innermost token first, walking the
parent chain; the outermost token may sit at any depth. -/
def matchRevToks (doc : Doc) : List Nat → List PathTok → Bool
  | _, [] => true
  | p, [tok] => matchTok doc p tok
  | p, tok :: rest =>
    matchTok doc p tok &&
      (match p with
       | [] => false
       | _ :: q => matchRevToks doc q rest)

/-- Model of `document.querySelectorAll(sel).length` for the CSS engine: `none`
models the `SyntaxError` thrown on the non-CSS forms the script also feeds
it (`:has-text(...)` pseudo-classes and `>>` chains are Playwright syntax,
invalid for `querySelectorAll`).  Attribute values are assumed CSS-safe. -/
def cssCount (doc : Doc) : Sel → Option Nat
  | .byId i => some ((elemPaths doc).countP fun p =>
      attrD (dataAt doc p) "id" == i)
  | .byAttr n v => some ((elemPaths doc).countP fun p =>
      attrOf (dataAt doc p) n == some v)
  | .tagAttr t n v => some ((elemPaths doc).countP fun p =>
      tagOf (dataAt doc p) == t && attrOf (dataAt doc p) n == some v)
  | .hasText _ _ => none
  | .cssPath toks => some ((elemPaths doc).countP fun p =>
      matchRevToks doc p toks.reverse)
  | .chain _ _ => none

/-- Source function `isUnique(selector)` (lines 123-130): `try { return
document.querySelectorAll(selector).length === 1 } catch { return false }`. -/
def isUnique (doc : Doc) (s : Sel) : Bool :=
  cssCount doc s == some 1

/-- Modelled from the spec (sections 4.5a and 6): resolution of the compound
"scope >> match" dialect by the external automation driver, which is not
part of this repository.  The descendant clause is evaluated inside the
first match of the ancestor clause, and a `with-text` predicate holds of an
element whose rendered text contains the given text. -/
def selMatchesAt (doc : Doc) (p : List Nat) : Sel → Bool
  | .hasText t txt =>
    tagOf (dataAt doc p) == t && containsSub (textContentAll doc p) txt
  | .byId i => (dataAt doc p).isElem && attrD (dataAt doc p) "id" == i
  | _ => false

/-- Modelled from the spec (section 6): how many elements the external
driver resolves a selector to; CSS-resolvable selectors go through the
query engine, compound chains through ancestor scoping. -/
def driverCount (doc : Doc) : Sel → Option Nat
  | .chain a b =>
    match ((elemPaths doc).filter fun p => selMatchesAt doc p a).head? with
    | some fp => some (((elemPaths doc).filter fun p =>
        p != fp && fp.isSuffixOf p && selMatchesAt doc p b).length)
    | none => some 0
  | s => cssCount doc s

/-! ## Selector synthesis (`getUniversalSelector`, source lines 324-406)

The script's early returns are modelled as a chain of `Option Sel`
strategies; each strategy mirrors one `STRATEGY n` block. -/

/-- The identifier test `/^[a-zA-Z][\w-]*$/`. -/
def validIdent (s : String) : Bool :=
  match s.data with
  | [] => false
  | c :: cs => c.isAlpha && cs.all fun x => x.isAlphanum || x == '_' || x == '-'

/-- The pattern `if (isUnique(selector)) return selector;` - shared tail of the
uniqueness-checked strategies. -/
def tryUnique (doc : Doc) (s : Sel) : Option Sel :=
  if isUnique doc s then some s else none

/-- STRATEGY 1: `#id` when the id is a valid identifier and unique. -/
def strat1 (doc : Doc) (p : List Nat) : Option Sel :=
  if idProp doc p ≠ "" ∧ validIdent (idProp doc p) = true then
    tryUnique doc (.byId (idProp doc p))
  else none

/-- STRATEGY 2: `[name="..."]` when present and unique. -/
def strat2 (doc : Doc) (p : List Nat) : Option Sel :=
  if attrD (dataAt doc p) "name" ≠ "" then
    tryUnique doc (.byAttr "name" (attrD (dataAt doc p) "name"))
  else none

/-- STRATEGY 3: first `data-*` attribute (declaration order, non-empty
value) whose attribute query is unique. -/
def strat3 (doc : Doc) (p : List Nat) : Option Sel :=
  (attrsOf (dataAt doc p)).findSome? fun a =>
    if a.1.startsWith "data-" ∧ a.2 ≠ "" then tryUnique doc (.byAttr a.1 a.2)
    else none

/-- STRATEGY 5: `tag[type="..."]` for non-div tags, when unique.  (`el.type`
is modelled as the `type` attribute.) -/
def strat5 (doc : Doc) (p : List Nat) : Option Sel :=
  if attrD (dataAt doc p) "type" ≠ "" ∧ tagOf (dataAt doc p) ≠ "div" then
    tryUnique doc
      (.tagAttr (tagOf (dataAt doc p)) "type" (attrD (dataAt doc p) "type"))
  else none

/-- STRATEGY 6: `tag[aria-label="..."]`, else `tag[aria-labelledby="..."]`,
each only when unique. -/
def strat6 (doc : Doc) (p : List Nat) : Option Sel :=
  match (if attrD (dataAt doc p) "aria-label" ≠ "" then
      tryUnique doc (.tagAttr (tagOf (dataAt doc p)) "aria-label"
        (attrD (dataAt doc p) "aria-label"))
    else none) with
  | some s => some s
  | none =>
    if attrD (dataAt doc p) "aria-labelledby" ≠ "" then
      tryUnique doc (.tagAttr (tagOf (dataAt doc p)) "aria-labelledby"
        (attrD (dataAt doc p) "aria-labelledby"))
    else none

/-- The loop of `buildPositionBasedSelector` (source lines 284-318): walk up
from the element; an ancestor with a valid identifier terminates the path
with `#id`; otherwise prepend `tag:nth-child(k)` and stop at the root's
child level (`current === document.body`) or once the accumulated path is
unique; at most 5 levels (`fuel` counts the remaining iterations of
`depth < maxDepth`). -/
def posLoop (doc : Doc) : Nat → List Nat → List PathTok → List PathTok
  | 0, _, acc => acc
  | fuel + 1, q, acc =>
    let d := dataAt doc q
    let i := attrD d "id"
    if i ≠ "" ∧ validIdent i = true then .idTok i :: acc
    else
      let acc' := PathTok.nth (tagOf d) (getNthChildIndex doc q) :: acc
      match q with
      | [] => acc'
      | _ :: q' =>
        if q' = [] ∨ isUnique doc (.cssPath acc') = true then acc'
        else posLoop doc fuel q' acc'

/-- Source function `buildPositionBasedSelector` (lines 284-318). -/
def buildPositionBasedSelector (doc : Doc) (p : List Nat) : Sel :=
  .cssPath (posLoop doc 5 p [])

/-- The ancestor walk of `buildContextualSelector` (source lines 240-278):
first ancestor (up to 5 levels) with direct text that is non-empty and
differs from the element's text yields a chained
`parentTag:has-text(parentText) >> tag:has-text(elementText)` selector;
an ancestor with an id yields `#id >> tag:has-text(elementText)`. -/
def ctxLoop (doc : Doc) (tagName elementText : String) :
    List (List Nat) → Nat → Option Sel
  | [], _ => none
  | pp :: rest, depth =>
    if depth < 5 then
      let ptext := getDirectText doc pp
      if ptext ≠ "" ∧ ptext ≠ elementText then
        some (.chain (.hasText (tagOf (dataAt doc pp)) ptext)
          (.hasText tagName elementText))
      else if idProp doc pp ≠ "" then
        some (.chain (.byId (idProp doc pp)) (.hasText tagName elementText))
      else ctxLoop doc tagName elementText rest (depth + 1)
    else none

/-- Source function `buildContextualSelector` (lines 240-278): ancestor walk, falling
back to the position-based selector. -/
def buildContextualSelector (doc : Doc) (p : List Nat) (elementText : String) :
    Sel :=
  match ctxLoop doc (tagOf (dataAt doc p)) elementText (ancPaths p) 0 with
  | some s => s
  | none => buildPositionBasedSelector doc p

/-- STRATEGY 4 (source lines 356-373): for button/anchor elements with
non-empty direct text under 100 characters, return the text selector if
unique, otherwise the contextual selector - never fall through. -/
def strat4 (doc : Doc) (p : List Nat) : Option Sel :=
  let d := dataAt doc p
  let text := getDirectText doc p
  if text ≠ "" ∧ text.length < 100 then
    if tagOf d = "button" ∨ tagOf d = "a" then
      let ts := Sel.hasText (tagOf d) text
      if isUnique doc ts then some ts
      else some (buildContextualSelector doc p text)
    else none
  else none

/-- Source function `getUniversalSelector` (lines 324-406): the ordered strategy
chain with the position-based selector as universal fallback. -/
def getUniversalSelector (doc : Doc) (p : List Nat) : Sel :=
  match strat1 doc p with
  | some s => s
  | none =>
  match strat2 doc p with
  | some s => s
  | none =>
  match strat3 doc p with
  | some s => s
  | none =>
  match strat4 doc p with
  | some s => s
  | none =>
  match strat5 doc p with
  | some s => s
  | none =>
  match strat6 doc p with
  | some s => s
  | none => buildPositionBasedSelector doc p

/-! ## Context extraction (`extractContext`, source lines 167-234) -/

/-- The per-element context record (all fields optional strings). -/
structure Context where
  parent_text : String := ""
  parent_tag : String := ""
  parent_classes : String := ""
  sibling_text : String := ""
  container_id : String := ""
  aria_context : String := ""
deriving DecidableEq, Repr

/-- The ancestor walk of `extractContext` (source lines 177-205), returning
`(parent_text, parent_tag, parent_classes, container_id)`.  In the
qualifying-text branch the script overwrites `container_id` with the
qualifying ancestor's id whenever that ancestor has one; in the other branch
it records the id only when none has been recorded yet. -/
def ctxAncLoop (doc : Doc) (elText : String) :
    List (List Nat) → Nat → String → String × String × String × String
  | [], _, cid => ("", "", "", cid)
  | pp :: rest, depth, cid =>
    if depth < 5 then
      let ptext := getDirectText doc pp
      if ptext ≠ "" ∧ ptext ≠ elText then
        (ptext, tagOf (dataAt doc pp), attrD (dataAt doc pp) "class",
          if idProp doc pp ≠ "" then idProp doc pp else cid)
      else
        ctxAncLoop doc elText rest (depth + 1)
          (if cid = "" ∧ idProp doc pp ≠ "" then idProp doc pp else cid)
    else ("", "", "", cid)

/-- The preceding-sibling walk (source lines 207-219): up to 3 preceding
element siblings, first non-empty direct text wins. -/
def sibLoop (doc : Doc) : List (List Nat) → Nat → String
  | [], _ => ""
  | sp :: rest, k =>
    if k < 3 then
      let st := getDirectText doc sp
      if st ≠ "" then st else sibLoop doc rest (k + 1)
    else ""

/-- The ARIA context (source lines 221-231): `aria-label`, else the direct
text of the element referenced by `aria-labelledby`. -/
def ariaContext (doc : Doc) (p : List Nat) : String :=
  let al := attrD (dataAt doc p) "aria-label"
  if al ≠ "" then al
  else
    let alb := attrD (dataAt doc p) "aria-labelledby"
    if alb ≠ "" then
      match getElementById doc alb with
      | some lp => getDirectText doc lp
      | none => ""
    else ""

/-- Source function `extractContext` (lines 167-234). -/
def extractContext (doc : Doc) (p : List Nat) : Context :=
  match ctxAncLoop doc (getDirectText doc p) (ancPaths p) 0 "" with
  | (pt, ptag, pcls, cid) =>
    { parent_text := pt, parent_tag := ptag, parent_classes := pcls,
      container_id := cid,
      sibling_text := sibLoop doc (prevElemSiblings doc p) 0,
      aria_context := ariaContext doc p }

/-! ## Profile building (`extractElementProfile`, source lines 412-458) -/

/-- An element profile.  `selector` is `null` until the caller fills it in;
modelled as `""` then overwritten.  `attributes` is an insertion-ordered
key/value list (a JS object literal). -/
structure Profile where
  selector : String
  text : String
  tag : String
  attributes : List (String × String)
  context : Option Context
deriving DecidableEq, Repr

/-- The allow-listed semantic attributes (source lines 434-438). -/
def keyAttributes : List String :=
  ["id", "name", "type", "class", "value", "aria-label", "aria-labelledby",
   "placeholder", "role", "href", "title", "alt"]

/-- The host DOM's `el.value` property: for a textarea the value is its
text content (the default value); for other elements the `value`
attribute. -/
def propValue (doc : Doc) (p : List Nat) : String :=
  if tagOf (dataAt doc p) = "textarea" then textContentAll doc p
  else attrD (dataAt doc p) "value"

/-- The profile's text (source lines 421-431): for input/textarea,
`el.placeholder || el.value || ''`; otherwise the direct text. -/
def profileText (doc : Doc) (p : List Nat) : String :=
  let t := tagOf (dataAt doc p)
  if t = "input" ∨ t = "textarea" then
    let ph := attrD (dataAt doc p) "placeholder"
    if ph ≠ "" then ph
    else
      let v := propValue doc p
      if v ≠ "" then v else ""
  else getDirectText doc p

/-- Attribute snapshot (source lines 433-452): allow-listed attributes with
non-null, non-empty values, then every `data-*` attribute. -/
def profileAttrs (d : NData) : List (String × String) :=
  (keyAttributes.filterMap fun a =>
    match attrOf d a with
    | some v => if v ≠ "" then some (a, v) else none
    | none => none)
  ++ (attrsOf d).filter fun a => a.1.startsWith "data-"

/-- Source function `extractElementProfile` (lines 412-458). -/
def extractElementProfile (doc : Doc) (p : List Nat) : Profile :=
  { selector := "",
    text := profileText doc p,
    tag := tagOf (dataAt doc p),
    attributes := profileAttrs (dataAt doc p),
    context := some (extractContext doc p) }

/-! ## Collection, visibility, and the scan pipeline -/

/-- The interactive predicate of `getAllElementsIncludingShadow` (source
lines 71-102): the fixed selector list, as a predicate on one element
(`div[onclick]` is subsumed by `[onclick]`).  On the shadow-free documents
of this development the shadow recursion contributes nothing, so the
collector is this predicate over the store in document order. -/
def isInteractive (d : NData) : Bool :=
  match d with
  | .txt _ => false
  | .elem t _ _ =>
    t == "button" ||
    (t == "a" && hasAttrB d "href") ||
    t == "input" || t == "textarea" || t == "select" ||
    attrD d "role" == "button" || attrD d "role" == "link" ||
    hasAttrB d "onclick" ||
    attrD d "type" == "submit" ||
    ((splitWSAux (attrD d "class").data []).map String.mk).contains
      "cursor-pointer" ||
    containsSub (attrD d "style") "cursor: pointer" ||
    containsSub (attrD d "style") "cursor:pointer"

/-- The collector: every interactive element, in document order. -/
def getAllElementsIncludingShadow (doc : Doc) : List (List Nat) :=
  doc.filterMap fun e => if isInteractive e.data then some e.path else none

/-- The visibility filter of the main loop (source lines 475-481). -/
def isVisible (st : Style) : Bool :=
  decide (0 < st.width) && decide (0 < st.height) &&
    st.display != "none" && st.visibility != "hidden" && st.opacity != "0"

/-- The select-visibility check of the option expander (source lines
546-551): geometry, display and visibility only - no opacity condition. -/
def isSelectVisible (st : Style) : Bool :=
  decide (0 < st.width) && decide (0 < st.height) &&
    st.display != "none" && st.visibility != "hidden"

/-- The filtered, visible set: collected elements passing the visibility
filter, in document order. -/
def visiblePaths (doc : Doc) : List (List Nat) :=
  (getAllElementsIncludingShadow doc).filter fun p =>
    isVisible (styleOf (dataAt doc p))

/-- STEP 1 of `performTagging` (source lines 470-534): profile every visible
element and assign sequential ids starting at 1 (`idCounter`); object keys
are strings. -/
def primaryLoop (doc : Doc) : Nat → List (List Nat) → List (String × Profile)
  | _, [] => []
  | k, p :: ps =>
    (toString k,
      { extractElementProfile doc p with
          selector := (getUniversalSelector doc p).render }) ::
      primaryLoop doc (k + 1) ps

/-- The element map after STEP 1. -/
def primaryMap (doc : Doc) : List (String × Profile) :=
  primaryLoop doc 1 (visiblePaths doc)

/-! ## STEP 2: the option expander (source lines 539-641) -/

/-- Model of `document.querySelectorAll('select')`: all selects in document order. -/
def selectPaths (doc : Doc) : List (List Nat) :=
  doc.filterMap fun e => if tagOf e.data == "select" then some e.path else none

/-- Model of `selectElement.querySelectorAll('option')`: descendant options, in
document order. -/
def optionPathsOf (doc : Doc) (sp : List Nat) : List (List Nat) :=
  doc.filterMap fun e =>
    if tagOf e.data == "option" && e.path != sp && sp.isSuffixOf e.path then
      some e.path
    else none

/-- The host DOM's `option.value` property: the `value` attribute if
present, else the option's text (stripped and collapsed). -/
def optValue (doc : Doc) (op : List Nat) : String :=
  match attrOf (dataAt doc op) "value" with
  | some v => v
  | none => normWS (textContentAll doc op)

/-- Model of `option.disabled` / `option.hasAttribute('disabled')`. -/
def optDisabled (doc : Doc) (op : List Nat) : Bool :=
  hasAttrB (dataAt doc op) "disabled"

/-- The option profile (source lines 590-603): compound selector string,
normalized text, the value and parent-select attributes, and a reduced
context (the script's object literal carries only these three context
fields; the others are absent, modelled as `""`). -/
def mkOptionProfile (doc : Doc) (sp op : List Nat) (selSel : String) :
    Profile :=
  { selector := selSel ++ " option[value=\"" ++ optValue doc op ++ "\"]",
    text := normWS (textContentAll doc op),
    tag := "option",
    attributes := [("value", optValue doc op), ("parent-select", selSel)],
    context := some
      { parent_text := match sp with
          | [] => ""
          | _ :: q => getDirectText doc q,
        parent_tag := "select",
        container_id := attrD (dataAt doc sp) "id" } }

/-- The option loop (source lines 569-640): skip empty, disabled or
placeholder options (the script's condition is kept with its redundant
disjuncts); each surviving option takes the compound id
`selectId ++ String.fromCharCode(97 + validOptionIndex)`. -/
def optionLoop (doc : Doc) (sp : List Nat) (selectId selSel : String) :
    List (List Nat) → Nat → List (String × Profile)
  | [], _ => []
  | op :: ops, k =>
    if optValue doc op == "" || optDisabled doc op || optValue doc op == "" ||
        optValue doc op == "select" || optDisabled doc op then
      optionLoop doc sp selectId selSel ops k
    else
      (selectId ++ (Char.ofNat (97 + k)).toString,
        mkOptionProfile doc sp op selSel) ::
        optionLoop doc sp selectId selSel ops (k + 1)

/-- Processing of one select (the body of `selectElements.forEach`, source
lines 541-641): skip invisible selects; recompute the select's selector;
look its id up in the element map by selector-string equality (object key
enumeration order = insertion order here); on a miss, do nothing. -/
def expandStep (doc : Doc) (m : List (String × Profile)) (sp : List Nat) :
    List (String × Profile) :=
  if isSelectVisible (styleOf (dataAt doc sp)) then
    let selSel := (getUniversalSelector doc sp).render
    match m.find? fun kv => kv.2.selector == selSel with
    | none => m
    | some kv => m ++ optionLoop doc sp kv.1 selSel (optionPathsOf doc sp) 0
  else m

/-- STEP 2 over all selects. -/
def expandSelects (doc : Doc) (m : List (String × Profile)) :
    List (String × Profile) :=
  (selectPaths doc).foldl (expandStep doc) m

/-- Source function `performTagging` (lines 62-648), as the element map it returns
(serialization aside; the visual tags do not affect the map). -/
def performTagging (doc : Doc) : List (String × Profile) :=
  expandSelects doc (primaryMap doc)

/-! ## Concrete documents used as counterexamples and witnesses -/

/-- A plainly visible style. -/
def styleV : Style :=
  ⟨10, 10, "block", "visible", "1"⟩

/-- A section labelled "Billing" containing two buttons that both read
"Submit". -/
def docTwinButtons : Doc :=
  [⟨[], .elem "body" [] styleV⟩,
   ⟨[0], .elem "div" [] styleV⟩,
   ⟨[0, 0], .txt "Billing"⟩,
   ⟨[1, 0], .elem "button" [] styleV⟩,
   ⟨[0, 1, 0], .txt "Submit"⟩,
   ⟨[2, 0], .elem "button" [] styleV⟩,
   ⟨[0, 2, 0], .txt "Submit"⟩]

/-- Claim C1 counterexample: the first "Submit" button is in the filtered,
visible set; its synthesized selector comes from the contextual tier (not
the structural fallback - the result is not a positional path), yet at the
moment of synthesis it resolves to 2 elements, not exactly one. -/
theorem selector_uniqueness_counterexample :
    [1, 0] ∈ visiblePaths docTwinButtons ∧
    getUniversalSelector docTwinButtons [1, 0]
      = Sel.chain (.hasText "div" "Billing") (.hasText "button" "Submit") ∧
    (getUniversalSelector docTwinButtons [1, 0]).isStructuralPath = false ∧
    driverCount docTwinButtons (getUniversalSelector docTwinButtons [1, 0])
      = some 2 := by
  decide

/-- Two sections with headings "Billing" and "Shipping", each with a
"Submit" button. -/
def docTwoSections : Doc :=
  [⟨[], .elem "body" [] styleV⟩,
   ⟨[0], .elem "div" [] styleV⟩,
   ⟨[0, 0], .txt "Billing"⟩,
   ⟨[1, 0], .elem "button" [] styleV⟩,
   ⟨[0, 1, 0], .txt "Submit"⟩,
   ⟨[1], .elem "div" [] styleV⟩,
   ⟨[0, 1], .txt "Shipping"⟩,
   ⟨[1, 1], .elem "button" [] styleV⟩,
   ⟨[0, 1, 1], .txt "Submit"⟩]

/-- Claim C5: two buttons with identical direct text "Submit" under
ancestors with distinct direct texts "Billing" and "Shipping" synthesize
two distinct compound selectors, each referencing its own ancestor's text;
the compound form is not even evaluable by the CSS query engine
(`cssCount = none`), so no live uniqueness verification happens for this
tier. -/
theorem contextual_selectors_distinct :
    getUniversalSelector docTwoSections [1, 0]
      = Sel.chain (.hasText "div" "Billing") (.hasText "button" "Submit") ∧
    getUniversalSelector docTwoSections [1, 1]
      = Sel.chain (.hasText "div" "Shipping") (.hasText "button" "Submit") ∧
    getUniversalSelector docTwoSections [1, 0]
      ≠ getUniversalSelector docTwoSections [1, 1] ∧
    (getUniversalSelector docTwoSections [1, 0]).render
      ≠ (getUniversalSelector docTwoSections [1, 1]).render ∧
    cssCount docTwoSections (getUniversalSelector docTwoSections [1, 0])
      = none ∧
    cssCount docTwoSections (getUniversalSelector docTwoSections [1, 1])
      = none := by
  decide

/-- A button whose nearest ancestor has an id but no text, while a farther
ancestor has qualifying text and its own id. -/
def docNestedIds : Doc :=
  [⟨[], .elem "body" [] styleV⟩,
   ⟨[0], .elem "div" [("id", "outer")] styleV⟩,
   ⟨[0, 0], .txt "Label"⟩,
   ⟨[1, 0], .elem "div" [("id", "inner")] styleV⟩,
   ⟨[0, 1, 0], .elem "button" [] styleV⟩,
   ⟨[0, 0, 1, 0], .txt "Go"⟩]

/-- The claim's reading of `container_id`: the first ancestor id
encountered within 5 levels, regardless of that ancestor's text. -/
def claimFirstAncestorId (doc : Doc) (p : List Nat) : String :=
  ((((ancPaths p).take 5).find? fun pp => idProp doc pp != "").map
    (idProp doc ·)).getD ""

/-- Claim C6 counterexample: the first ancestor id encountered is "inner",
but `extractContext` reports `container_id = "outer"`: when the first
text-qualifying ancestor itself carries an id, the script overwrites the
previously recorded id with it. -/
theorem container_id_counterexample :
    claimFirstAncestorId docNestedIds [0, 1, 0] = "inner" ∧
    (extractContext docNestedIds [0, 1, 0]).container_id = "outer" ∧
    (extractContext docNestedIds [0, 1, 0]).parent_text = "Label" := by
  decide

/-- A visible select with options valued `["", "a1", "a2"]`. -/
def docSelect : Doc :=
  [⟨[], .elem "body" [] styleV⟩,
   ⟨[0], .elem "select" [("name", "sel")] styleV⟩,
   ⟨[0, 0], .elem "option" [("value", "")] styleV⟩,
   ⟨[0, 0, 0], .txt "pick one"⟩,
   ⟨[1, 0], .elem "option" [("value", "a1")] styleV⟩,
   ⟨[0, 1, 0], .txt "first"⟩,
   ⟨[2, 0], .elem "option" [("value", "a2")] styleV⟩,
   ⟨[0, 2, 0], .txt "second"⟩]

/-- A style with positive geometry, visible display/visibility, and the
string-literal zero opacity. -/
def opacityZeroStyle : Style :=
  ⟨5, 5, "block", "visible", "0"⟩

/-- Claim C8 counterexample: the option expander's visibility check is not
the Visibility Filter's predicate - a select with opacity "0" and positive
geometry passes `isSelectVisible` but fails `isVisible`, because
`isSelectVisible` omits the opacity condition. -/
theorem option_visibility_counterexample :
    isSelectVisible opacityZeroStyle = true ∧
    isVisible opacityZeroStyle = false := by
  decide

/-- An input with no placeholder and no value attribute but a direct text
child (a DOM-constructed state the claim's fallback chain would cover). -/
def docInputText : Doc :=
  [⟨[], .elem "body" [] styleV⟩,
   ⟨[0], .elem "input" [] styleV⟩,
   ⟨[0, 0], .txt "X"⟩]

/-- Claim C9 counterexample: for an input with empty placeholder and value
but non-empty direct text-node content, the profile's text is `""` - the
script's `placeholder || value || ''` never falls back to the direct
text. -/
theorem profile_text_counterexample :
    (extractElementProfile docInputText [0]).text = "" ∧
    getDirectText docInputText [0] = "X" := by
  decide

/-! ## The uniqueness-checked tiers (claim C1, amended) -/

theorem tryUnique_count {doc : Doc} {u s : Sel} (h : tryUnique doc u = some s) :
    cssCount doc s = some 1 := by
  unfold tryUnique at h
  by_cases hu : isUnique doc u = true
  · rw [if_pos hu] at h
    cases h
    unfold isUnique at hu
    exact eq_of_beq hu
  · rw [if_neg hu] at h
    cases h

theorem exists_of_findSome?_eq_some {α β : Type} {f : α → Option β} :
    ∀ {l : List α} {b : β}, l.findSome? f = some b → ∃ a ∈ l, f a = some b := by
  intro l
  induction l with
  | nil => intro b h; simp [List.findSome?_nil] at h
  | cons a l ih =>
    intro b h
    rw [List.findSome?_cons] at h
    cases hfa : f a with
    | some c =>
      rw [hfa] at h
      exact ⟨a, List.mem_cons_self a l, by rw [hfa]; exact h⟩
    | none =>
      rw [hfa] at h
      obtain ⟨x, hx, hfx⟩ := ih h
      exact ⟨x, List.mem_cons_of_mem a hx, hfx⟩

/-- Claim C1, amended: every selector returned by one of the
uniqueness-checked tiers (identifier, name, data-attribute, type,
accessible-name) resolves to exactly one element in the live document at
the moment of synthesis; the contextual and structural tiers are returned
without live verification (and no tier is flagged distinctly in the
returned value). -/
theorem checked_tiers_unique (doc : Doc) (p : List Nat) (s : Sel)
    (h : strat1 doc p = some s ∨ strat2 doc p = some s ∨
      strat3 doc p = some s ∨ strat5 doc p = some s ∨ strat6 doc p = some s) :
    cssCount doc s = some 1 := by
  rcases h with h | h | h | h | h
  · unfold strat1 at h
    split at h
    · exact tryUnique_count h
    · cases h
  · unfold strat2 at h
    split at h
    · exact tryUnique_count h
    · cases h
  · unfold strat3 at h
    obtain ⟨a, _, ha⟩ := exists_of_findSome?_eq_some h
    split at ha
    · exact tryUnique_count ha
    · cases ha
  · unfold strat5 at h
    split at h
    · exact tryUnique_count h
    · cases h
  · unfold strat6 at h
    rcases hX : (if attrD (dataAt doc p) "aria-label" ≠ "" then
        tryUnique doc (.tagAttr (tagOf (dataAt doc p)) "aria-label"
          (attrD (dataAt doc p) "aria-label"))
      else none) with _ | s'
    · rw [hX] at h
      simp only [] at h
      split at h
      · exact tryUnique_count h
      · cases h
    · rw [hX] at h
      simp only [] at h
      cases h
      split at hX
      · exact tryUnique_count hX
      · cases hX

/-- A lone button with a valid, unique id. -/
def docIdButton : Doc :=
  [⟨[], .elem "body" [] styleV⟩,
   ⟨[0], .elem "button" [("id", "go")] styleV⟩]

/-- Witness for the amended C1 at a concrete document: the id tier fires
and its selector resolves to exactly one element. -/
theorem checked_tiers_unique_witness :
    strat1 docIdButton [0] = some (Sel.byId "go") ∧
    cssCount docIdButton (Sel.byId "go") = some 1 :=
  ⟨by decide,
   checked_tiers_unique docIdButton [0] (Sel.byId "go") (Or.inl (by decide))⟩

/-! ## Strategy 4 never falls through (claim C4) -/

/-- Claim C4: when the strategy chain reaches strategy 4 (tiers 1-3
produced nothing) at a button or anchor whose direct text is non-empty and
under 100 characters, and the text selector is not unique against the live
document, the synthesizer returns the contextual-disambiguation result for
that same text - it does not fall through to the type, accessible-name or
structural-fallback strategies. -/
theorem strategy4_contextual_no_fallthrough (doc : Doc) (p : List Nat)
    (h1 : strat1 doc p = none) (h2 : strat2 doc p = none)
    (h3 : strat3 doc p = none)
    (htag : tagOf (dataAt doc p) = "button" ∨ tagOf (dataAt doc p) = "a")
    (htext : getDirectText doc p ≠ "")
    (hlen : (getDirectText doc p).length < 100)
    (huniq : isUnique doc
      (Sel.hasText (tagOf (dataAt doc p)) (getDirectText doc p)) = false) :
    getUniversalSelector doc p
      = buildContextualSelector doc p (getDirectText doc p) := by
  have h4 : strat4 doc p
      = some (buildContextualSelector doc p (getDirectText doc p)) := by
    unfold strat4
    simp only []
    rw [if_pos ⟨htext, hlen⟩, if_pos htag, if_neg (by rw [huniq]; simp)]
  unfold getUniversalSelector
  rw [h1, h2, h3, h4]

/-- A button with text "Go" inside a section labelled "Hi", with no id,
name or data attributes. -/
def docPlainButton : Doc :=
  [⟨[], .elem "body" [] styleV⟩,
   ⟨[0], .elem "div" [] styleV⟩,
   ⟨[0, 0], .txt "Hi"⟩,
   ⟨[1, 0], .elem "button" [] styleV⟩,
   ⟨[0, 1, 0], .txt "Go"⟩]

/-- Witness for C4 at a concrete document. -/
theorem strategy4_contextual_no_fallthrough_witness :
    strat1 docPlainButton [1, 0] = none ∧
    strat2 docPlainButton [1, 0] = none ∧
    strat3 docPlainButton [1, 0] = none ∧
    (tagOf (dataAt docPlainButton [1, 0]) = "button" ∨
      tagOf (dataAt docPlainButton [1, 0]) = "a") ∧
    getDirectText docPlainButton [1, 0] ≠ "" ∧
    (getDirectText docPlainButton [1, 0]).length < 100 ∧
    isUnique docPlainButton
      (Sel.hasText (tagOf (dataAt docPlainButton [1, 0]))
        (getDirectText docPlainButton [1, 0])) = false ∧
    getUniversalSelector docPlainButton [1, 0]
      = buildContextualSelector docPlainButton [1, 0]
          (getDirectText docPlainButton [1, 0]) :=
  ⟨by decide, by decide, by decide, by decide, by decide, by decide, by decide,
   strategy4_contextual_no_fallthrough docPlainButton [1, 0] (by decide)
     (by decide) (by decide) (by decide) (by decide) (by decide) (by decide)⟩

/-! ## The ancestor-walk characterization (claim C6, amended) -/

/-- Keep `c` unless it is still unset. -/
def combineId (c f : String) : String :=
  if c = "" then f else c

/-- First non-empty id among a list of ancestor paths, `""` if none. -/
def firstIdIn (doc : Doc) (l : List (List Nat)) : String :=
  ((l.find? fun pp => idProp doc pp != "").map (idProp doc ·)).getD ""

/-- Does this ancestor carry qualifying text (non-empty and different from
the element's direct text)? -/
def qualifiesB (doc : Doc) (elText : String) (pp : List Nat) : Bool :=
  getDirectText doc pp != "" && getDirectText doc pp != elText

/-- Declarative reading of the ancestor walk, generalized over the
already-accumulated `container_id`: the first qualifying ancestor supplies
the parent fields; `container_id` is that ancestor's id if it has one, and
otherwise the first id seen among the ancestors walked before it. -/
def ctxAncSpecGen (doc : Doc) (elText : String) (l : List (List Nat))
    (cid : String) : String × String × String × String :=
  match l.find? (qualifiesB doc elText) with
  | some q =>
    (getDirectText doc q, tagOf (dataAt doc q), attrD (dataAt doc q) "class",
      if idProp doc q ≠ "" then idProp doc q
      else combineId cid
        (firstIdIn doc (l.takeWhile fun pp => !qualifiesB doc elText pp)))
  | none => ("", "", "", combineId cid (firstIdIn doc l))

/-- The declarative reading of the full walk (5 levels, nothing
accumulated). -/
def ctxAncSpec (doc : Doc) (elText : String) (anc : List (List Nat)) :
    String × String × String × String :=
  ctxAncSpecGen doc elText (anc.take 5) ""

theorem combineId_empty_right (c : String) : combineId c "" = c := by
  unfold combineId
  by_cases h : c = "" <;> simp [h]

theorem combineId_assoc (a b c : String) :
    combineId (combineId a b) c = combineId a (combineId b c) := by
  unfold combineId
  by_cases ha : a = "" <;> by_cases hb : b = "" <;> simp [ha, hb]

theorem firstIdIn_cons (doc : Doc) (pp : List Nat) (l : List (List Nat)) :
    firstIdIn doc (pp :: l) = combineId (idProp doc pp) (firstIdIn doc l) := by
  unfold firstIdIn combineId
  by_cases h : idProp doc pp = ""
  · rw [List.find?_cons_of_neg _ (by simp [h])]
    simp [h]
  · rw [List.find?_cons_of_pos _ (by simp [h])]
    simp [h]

/-- The loop's `container_id` update equals `combineId`. -/
theorem cid_update_eq (doc : Doc) (pp : List Nat) (cid : String) :
    (if cid = "" ∧ idProp doc pp ≠ "" then idProp doc pp else cid)
      = combineId cid (idProp doc pp) := by
  unfold combineId
  by_cases hc : cid = "" <;> by_cases hi : idProp doc pp = "" <;>
    simp [hc, hi]

/-- Skipping a non-qualifying ancestor folds its id into the
accumulator. -/
theorem ctxAncSpecGen_cons_notqual (doc : Doc) (elText : String)
    (pp : List Nat) (l : List (List Nat)) (cid : String)
    (h : qualifiesB doc elText pp = false) :
    ctxAncSpecGen doc elText (pp :: l) cid
      = ctxAncSpecGen doc elText l (combineId cid (idProp doc pp)) := by
  unfold ctxAncSpecGen
  rw [List.find?_cons_of_neg _ (by simp [h]),
    List.takeWhile_cons_of_pos (by simp [h])]
  simp only [firstIdIn_cons, combineId_assoc]

/-- The implementation loop computes the declarative reading. -/
theorem ctxAncLoop_spec (doc : Doc) (elText : String) :
    ∀ (l : List (List Nat)) (d : Nat) (cid : String),
      ctxAncLoop doc elText l d cid
        = ctxAncSpecGen doc elText (l.take (5 - d)) cid := by
  intro l
  induction l with
  | nil =>
    intro d cid
    simp [ctxAncLoop, ctxAncSpecGen, firstIdIn, combineId_empty_right,
      List.find?_nil]
  | cons pp rest ih =>
    intro d cid
    by_cases hd : d < 5
    · have h54 : 5 - d = (4 - d) + 1 := by omega
      rw [h54, List.take_succ_cons]
      by_cases hq : getDirectText doc pp ≠ "" ∧ getDirectText doc pp ≠ elText
      · have hqb : qualifiesB doc elText pp = true := by
          simp [qualifiesB, hq.1, hq.2]
        unfold ctxAncLoop
        rw [if_pos hd, if_pos hq]
        unfold ctxAncSpecGen
        rw [List.find?_cons_of_pos _ hqb,
          List.takeWhile_cons_of_neg (by simp [hqb])]
        have hfe : firstIdIn doc ([] : List (List Nat)) = "" := by
          simp [firstIdIn]
        rw [hfe, combineId_empty_right]
      · have hqb : qualifiesB doc elText pp = false := by
          unfold qualifiesB
          rcases not_and_or.mp hq with h | h
          · push_neg at h
            simp [h]
          · push_neg at h
            simp [h]
        unfold ctxAncLoop
        rw [if_pos hd, if_neg hq, ih, cid_update_eq]
        have h41 : 5 - (d + 1) = 4 - d := by omega
        rw [h41, (ctxAncSpecGen_cons_notqual doc elText pp
          (rest.take (4 - d)) cid hqb)]
    · unfold ctxAncLoop
      rw [if_neg hd]
      have h0 : 5 - d = 0 := by omega
      rw [h0, List.take_zero]
      unfold ctxAncSpecGen
      rw [List.find?_nil]
      have hfe : firstIdIn doc ([] : List (List Nat)) = "" := by
        simp [firstIdIn]
      rw [hfe, combineId_empty_right]

/-- Claim C6, amended: `parent_text`/`parent_tag`/`parent_classes` record
the first ancestor (within 5 levels) whose direct text is non-empty and
differs from the element's direct text; `container_id` records the first
ancestor id encountered before that ancestor, EXCEPT that when the
qualifying ancestor itself has an id, that id wins (overwriting any
earlier-found id); the walk stops at the first qualifying text match. -/
theorem extractContext_ancestor_characterization (doc : Doc) (p : List Nat) :
    ((extractContext doc p).parent_text, (extractContext doc p).parent_tag,
      (extractContext doc p).parent_classes,
      (extractContext doc p).container_id)
      = ctxAncSpec doc (getDirectText doc p) (ancPaths p) := by
  unfold extractContext ctxAncSpec
  rcases hA : ctxAncLoop doc (getDirectText doc p) (ancPaths p) 0 ""
    with ⟨pt, ptag, pcls, cid⟩
  rw [ctxAncLoop_spec] at hA
  simp only []
  rw [← hA]

/-! ## Option letter assignment (claim C7) -/

/-- The claim's skip set: empty value, disabled, or the placeholder token
"select"; `surviving` keeps the rest in document order. -/
def surviving (doc : Doc) (ops : List (List Nat)) : List (List Nat) :=
  ops.filter fun op =>
    !(optValue doc op == "" || optDisabled doc op || optValue doc op == "select")

/-- The claim's id assignment: the `i`-th survivor (0-based, document
order) of select `selectId` receives id `selectId ++ <char 97+i>`. -/
def assignLetters (doc : Doc) (sp : List Nat) (selectId selSel : String) :
    Nat → List (List Nat) → List (String × Profile)
  | _, [] => []
  | k, op :: ops =>
    (selectId ++ (Char.ofNat (97 + k)).toString,
      mkOptionProfile doc sp op selSel) ::
      assignLetters doc sp selectId selSel (k + 1) ops

theorem skip_cond_collapse (a b c : Bool) :
    (a || b || a || c || b) = (a || b || c) := by
  cases a <;> cases b <;> cases c <;> rfl

/-- The implementation loop equals filtering followed by letter
assignment. -/
theorem optionLoop_eq_assign (doc : Doc) (sp : List Nat)
    (selectId selSel : String) :
    ∀ (ops : List (List Nat)) (k : Nat),
      optionLoop doc sp selectId selSel ops k
        = assignLetters doc sp selectId selSel k (surviving doc ops) := by
  intro ops
  induction ops with
  | nil => intro k; rfl
  | cons op rest ih =>
    intro k
    unfold optionLoop surviving
    rw [List.filter_cons]
    cases hskip : (optValue doc op == "" || optDisabled doc op ||
        optValue doc op == "select") with
    | true =>
      rw [show (optValue doc op == "" || optDisabled doc op ||
          optValue doc op == "" || optValue doc op == "select" ||
          optDisabled doc op) = true from by
        rw [skip_cond_collapse]; exact hskip]
      simp only [hskip, Bool.not_true, if_pos]
      unfold surviving at ih
      exact ih k
    | false =>
      rw [show (optValue doc op == "" || optDisabled doc op ||
          optValue doc op == "" || optValue doc op == "select" ||
          optDisabled doc op) = false from by
        rw [skip_cond_collapse]; exact hskip]
      simp only [hskip, Bool.not_false, if_neg]
      unfold assignLetters
      unfold surviving at ih
      rw [ih (k + 1)]
      simp

/-- Claim C7: the option expander skips exactly the options whose value is
empty, that are disabled, or whose value is the placeholder token "select",
and gives the surviving options, in document order, ids formed from the
select's id and the letter at their position among the survivors; in
particular the select with options valued `["", "a1", "a2"]` under id "7"
yields exactly the two ids "7a" and "7b". -/
theorem option_letter_assignment :
    (∀ (doc : Doc) (sp : List Nat) (selectId selSel : String),
      optionLoop doc sp selectId selSel (optionPathsOf doc sp) 0
        = assignLetters doc sp selectId selSel 0
            (surviving doc (optionPathsOf doc sp))) ∧
    (optionLoop docSelect [0] "7" "[name=\"sel\"]"
        (optionPathsOf docSelect [0]) 0).map Prod.fst = ["7a", "7b"] :=
  ⟨fun doc sp selectId selSel =>
    optionLoop_eq_assign doc sp selectId selSel (optionPathsOf doc sp) 0,
   by decide⟩

/-! ## The option expander's visibility test (claim C8, amended) -/

theorem expandSelects_all_invisible (doc : Doc) :
    ∀ (l : List (List Nat)) (m : List (String × Profile)),
      (∀ sp ∈ l, isSelectVisible (styleOf (dataAt doc sp)) = false) →
      l.foldl (expandStep doc) m = m := by
  intro l
  induction l with
  | nil => intro m _; rfl
  | cons sp rest ih =>
    intro m h
    have hsp := h sp (List.mem_cons_self sp rest)
    have hstep : expandStep doc m sp = m := by
      unfold expandStep
      rw [if_neg (by rw [hsp]; simp)]
    rw [List.foldl_cons, hstep]
    exact ih m fun u hu => h u (List.mem_cons_of_mem sp hu)

/-- Claim C8, amended: the option expander's visibility test agrees with
the Visibility Filter's predicate except exactly when geometry, display and
visibility pass but computed opacity is the string "0" (the expander omits
the opacity condition); selects failing the expander's own test are
skipped. -/
theorem option_visibility_amended :
    (∀ st : Style,
      (isSelectVisible st = isVisible st) ↔
        ¬(0 < st.width ∧ 0 < st.height ∧ st.display ≠ "none" ∧
          st.visibility ≠ "hidden" ∧ st.opacity = "0")) ∧
    (∀ (doc : Doc) (m : List (String × Profile)),
      (∀ sp ∈ selectPaths doc,
        isSelectVisible (styleOf (dataAt doc sp)) = false) →
      expandSelects doc m = m) := by
  constructor
  · rintro ⟨w, h, dp, vis, op⟩
    simp only [isVisible, isSelectVisible]
    by_cases h1 : 0 < w <;> by_cases h2 : 0 < h <;>
      by_cases h3 : dp = "none" <;> by_cases h4 : vis = "hidden" <;>
      by_cases h5 : op = "0" <;>
      simp [h1, h2, h3, h4, h5]
  · intro doc m h
    exact expandSelects_all_invisible doc (selectPaths doc) m h

/-- A document with no select element. -/
def docNoSelect : Doc :=
  [⟨[], .elem "body" [] styleV⟩]

/-- Witness for the amended C8: the difference characterization evaluated
at the opacity-"0" style, and the skipping behaviour on a concrete
document. -/
theorem option_visibility_amended_witness :
    ((isSelectVisible opacityZeroStyle = isVisible opacityZeroStyle) ↔
      ¬(0 < opacityZeroStyle.width ∧ 0 < opacityZeroStyle.height ∧
        opacityZeroStyle.display ≠ "none" ∧
        opacityZeroStyle.visibility ≠ "hidden" ∧
        opacityZeroStyle.opacity = "0")) ∧
    expandSelects docNoSelect [] = [] :=
  ⟨option_visibility_amended.1 opacityZeroStyle,
   option_visibility_amended.2 docNoSelect [] (by decide)⟩

/-! ## Profile text for input/textarea (claim C9, amended) -/

/-- Claim C9, amended: for input and textarea elements the profile's text
is the placeholder when non-empty, and otherwise the element's value (for
textareas, their text content; for inputs, the value attribute) - the
direct text-node content is never consulted, so the text is empty when
placeholder and value are both empty. -/
theorem profile_text_amended (doc : Doc) (p : List Nat)
    (h : tagOf (dataAt doc p) = "input" ∨ tagOf (dataAt doc p) = "textarea") :
    (extractElementProfile doc p).text
      = (if attrD (dataAt doc p) "placeholder" ≠ "" then
          attrD (dataAt doc p) "placeholder"
        else propValue doc p) := by
  show profileText doc p = _
  unfold profileText
  simp only []
  rw [if_pos h]
  by_cases hp : attrD (dataAt doc p) "placeholder" ≠ ""
  · rw [if_pos hp, if_pos hp]
  · rw [if_neg hp, if_neg hp]
    by_cases hv : propValue doc p ≠ ""
    · rw [if_pos hv]
    · rw [if_neg hv]
      push_neg at hv
      exact hv.symm

/-- An input with a placeholder. -/
def docPlaceholder : Doc :=
  [⟨[], .elem "body" [] styleV⟩,
   ⟨[0], .elem "input" [("placeholder", "Email"), ("value", "x")] styleV⟩]

/-- Witness for the amended C9 at a concrete input. -/
theorem profile_text_amended_witness :
    (tagOf (dataAt docPlaceholder [0]) = "input" ∨
      tagOf (dataAt docPlaceholder [0]) = "textarea") ∧
    (extractElementProfile docPlaceholder [0]).text
      = (if attrD (dataAt docPlaceholder [0]) "placeholder" ≠ "" then
          attrD (dataAt docPlaceholder [0]) "placeholder"
        else propValue docPlaceholder [0]) :=
  ⟨by decide, profile_text_amended docPlaceholder [0] (by decide)⟩

/-! ## Silent skip on a failed select lookup (claim C10) -/

/-- Claim C10: if the selector recomputed for a select during the
option-expansion pass is not string-equal to the selector stored in any
profile of the element map, the expander adds no option profiles for that
select and leaves the map unchanged (and no error is raised - the step is a
total function). -/
theorem missing_select_lookup_noop (doc : Doc) (m : List (String × Profile))
    (sp : List Nat)
    (h : ∀ kv ∈ m, kv.2.selector ≠ (getUniversalSelector doc sp).render) :
    expandStep doc m sp = m := by
  unfold expandStep
  by_cases hv : isSelectVisible (styleOf (dataAt doc sp)) = true
  · rw [if_pos hv]
    simp only []
    have hf : (m.find? fun kv =>
        kv.2.selector == (getUniversalSelector doc sp).render) = none := by
      rw [List.find?_eq_none]
      intro kv hkv hbeq
      exact h kv hkv (by exact eq_of_beq hbeq)
    rw [hf]
  · rw [if_neg hv]

/-- A visible select whose recomputed selector is `[name="s1"]`. -/
def docLoneSelect : Doc :=
  [⟨[], .elem "body" [] styleV⟩,
   ⟨[0], .elem "select" [("name", "s1")] styleV⟩]

/-- A stored profile whose selector cannot match. -/
def strayProfile : Profile :=
  { selector := "#other", text := "", tag := "div", attributes := [],
    context := none }

/-- Witness for C10: a map holding one non-matching profile is returned
unchanged. -/
theorem missing_select_lookup_noop_witness :
    (∀ kv ∈ [("1", strayProfile)],
      kv.2.selector ≠ (getUniversalSelector docLoneSelect [0]).render) ∧
    expandStep docLoneSelect [("1", strayProfile)] [0]
      = [("1", strayProfile)] :=
  ⟨by decide,
   missing_select_lookup_noop docLoneSelect [("1", strayProfile)] [0]
     (by decide)⟩

end Tagger
